import Mathlib

/-!
Verification development for the Florence.AI gateway (src/index.js).

The file shallowly embeds the token-economy and payment-verification core:
user records, the reward policy (`checkAndUpdateTokenRewards`,
`checkAndUpdateStreak`), the two inbound-message handlers (the WhatsApp
`app.post` route and the Telegram `bot.on` message handler), the payment
request marker map, and the payment-proof verifier `verifyPaymentProof`.

Modelling conventions:
- Timestamps are milliseconds since the epoch (`Nat` for user-record clocks,
  `Int` for verifier date arithmetic, matching JS `Date` subtraction).
- JS `toDateString()` calendar-day comparison is embedded as the day index
  `t / msPerDay` (the time zone offset is a constant of the environment and
  does not affect equality of day indices in the model).
- The surrounding I/O (PDF text extraction, Twilio/Telegram sends, the
  Claude call) is a collaborator boundary: handlers take the already
  extracted text, and a Boolean `callFails` saying whether the model call or
  outbound delivery throws after tokens were deducted.
-/

/-! ## Basic string machinery (JS `String.prototype.includes`) -/

/-- Boolean test that the first list is a prefix of the second. -/
def listStartsWith : List Char → List Char → Bool
  | [], _ => true
  | _ :: _, [] => false
  | a :: as, b :: bs => a == b && listStartsWith as bs

/-- Boolean test that `needle` occurs as a contiguous sublist of `hay`;
this is the embedding of JS `hay.includes(needle)`. -/
def listContains (needle : List Char) : List Char → Bool
  | [] => listStartsWith needle []
  | c :: rest => listStartsWith needle (c :: rest) || listContains needle rest

/-- JS `hay.includes(needle)` on strings. -/
def strIncludes (hay needle : String) : Bool :=
  listContains needle.data hay.data

/-- ASCII lowering of one character; embedding of what JS `toLowerCase`
does on the ASCII texts the verifier matches against. -/
def charToLower (c : Char) : Char :=
  if 65 ≤ c.toNat ∧ c.toNat ≤ 90 then Char.ofNat (c.toNat + 32) else c

/-- Embedding of `text.toLowerCase()`. -/
def strToLower (s : String) : String :=
  ⟨s.data.map charToLower⟩

/-! ## User records -/

/-- WhatsApp-side user record, as pushed by `addUser_wa` in src/index.js. -/
structure WaUser where
  WaId : String
  ProfileName : String
  tokens : Int
  referralId : String
  streak : Nat
  lastTokenReward : Nat
  lastActivity : Nat
  streakDate : Nat
deriving Repr, DecidableEq

/-- Telegram-side user record, as stored by `addUser_tg` in src/index.js. -/
structure TgUser where
  id : Nat
  tokens : Int
  streak : Nat
  lastActive : Nat
deriving Repr, DecidableEq

def msPerHour : Nat := 1000 * 60 * 60

def msPerDay : Nat := 24 * msPerHour

/-- Day index of a timestamp; embedding of the `toDateString()` calendar-day
comparison used by `checkAndUpdateStreak`. -/
def calDay (t : Nat) : Nat := t / msPerDay

/-- Embedding of `addUser_wa`: the WhatsApp route creates users with the
given tokens and streak, a referral id derived from the profile name, and
all three clocks set to now. -/
def addUser_wa (WaId ProfileName : String) (tokens : Int) (streak : Nat) (now : Nat) : WaUser :=
  { WaId := WaId
    ProfileName := ProfileName
    tokens := tokens
    referralId := ProfileName.take 1 ++ WaId
    streak := streak
    lastTokenReward := now
    lastActivity := now
    streakDate := now }

/-- Embedding of `addUser_tg`: Telegram users start with 10 tokens, streak 0
and `lastActive = now`. -/
def addUser_tg (id : Nat) (now : Nat) : TgUser :=
  { id := id, tokens := 10, streak := 0, lastActive := now }

/-! ## Reward policy -/

/-- Embedding of `checkAndUpdateTokenRewards` (src/index.js lines 285-301):
when at least 8 hours have elapsed since `lastTokenReward` and the balance is
at most 4, award `floor(elapsedHours / 8) * 10` tokens and stamp
`lastTokenReward := now`; otherwise change nothing and return 0. -/
def checkAndUpdateTokenRewards (user : WaUser) (now : Nat) : WaUser × Int :=
  let elapsedMs := now - user.lastTokenReward
  if 8 * msPerHour ≤ elapsedMs ∧ user.tokens ≤ 4 then
    let rewardCount := elapsedMs / (8 * msPerHour)
    let tokensAwarded : Int := (rewardCount : Int) * 10
    ({ user with tokens := user.tokens + tokensAwarded, lastTokenReward := now }, tokensAwarded)
  else
    (user, 0)

/-- Result record returned by `checkAndUpdateStreak`. -/
structure StreakResult where
  streakBroken : Bool
  streakReward : Int
deriving Repr, DecidableEq

/-- Embedding of `checkAndUpdateStreak` (src/index.js lines 308-333):
a gap of more than 48 hours since `lastActivity` resets the streak; else a
new calendar day increments it, paying 10 tokens at multiples of 10; else
nothing changes. -/
def checkAndUpdateStreak (user : WaUser) (now : Nat) : WaUser × StreakResult :=
  if 48 * msPerHour < now - user.lastActivity then
    ({ user with streak := 0, streakDate := now }, { streakBroken := true, streakReward := 0 })
  else if calDay now ≠ calDay user.streakDate then
    let user1 := { user with streak := user.streak + 1, streakDate := now }
    if user1.streak % 10 = 0 then
      ({ user1 with tokens := user1.tokens + 10 }, { streakBroken := false, streakReward := 10 })
    else
      (user1, { streakBroken := false, streakReward := 0 })
  else
    (user, { streakBroken := false, streakReward := 0 })

/-- Embedding of `updateUserActivity`: stamps `lastActivity := now`. -/
def updateUserActivity (user : WaUser) (now : Nat) : WaUser :=
  { user with lastActivity := now }

/-! ## WhatsApp inbound handler -/

/-- Relevant fields of the Twilio webhook body. -/
structure WaMsg where
  Body : String
  MessageType : String
  NumMedia : Nat
deriving Repr, DecidableEq

/-- True when the body is one of the five recognized slash commands of the
WhatsApp `switch`. -/
def isWaCommand (body : String) : Bool :=
  body == "/start" || body == "/about" || body == "/payments" ||
  body == "/tokens" || body == "/streak"

/-- Embedding of the existing-user branch of `app.post` on the WhatsApp
route (src/index.js lines 359-471): idle-reward check first, then the
command switch; the default branch refuses at balance ≤ 0, else stamps
activity, evaluates the streak, and spends 2 tokens on a media message
(when at most 5 media items) or 1 on a text message before calling the
model.  The second component records whether the model call or delivery
threw; the route-level catch sends a 500 and does not touch the balance,
so the user state is the same either way. -/
def handleWhatsApp (user : WaUser) (msg : WaMsg) (now : Nat) (callFails : Bool) :
    WaUser × Bool :=
  let user1 := (checkAndUpdateTokenRewards user now).1
  if isWaCommand msg.Body then
    (user1, false)
  else if user1.tokens ≤ 0 then
    (user1, false)
  else
    let user2 := updateUserActivity user1 now
    let user3 := (checkAndUpdateStreak user2 now).1
    if msg.MessageType == "image" || msg.MessageType == "document" then
      if 5 < msg.NumMedia then
        (user3, false)
      else
        ({ user3 with tokens := user3.tokens - 2 }, callFails)
    else if msg.MessageType == "text" then
      ({ user3 with tokens := user3.tokens - 1 }, callFails)
    else
      (user3, false)

/-! ## Telegram middleware and message handler -/

/-- Embedding of the `bot.use` middleware body for an existing user: stamps
`lastActive := now` and nothing else. -/
def tgTouchActivity (user : TgUser) (now : Nat) : TgUser :=
  { user with lastActive := now }

/-- Embedding of the Telegram `bot.on` message handler
(src/index.js lines 765-814): more than 5 photos is rejected outright; the
required cost is `2 * photos` for media else 1; an insufficient balance is
refused with no deduction; otherwise the cost is deducted and, when the
model call or reply throws, refunded in the catch block. -/
def handleTgMessage (user : TgUser) (numPhotos : Nat) (callFails : Bool) : TgUser :=
  if 5 < numPhotos then
    user
  else
    let requiredTokens : Int := if 0 < numPhotos then 2 * (numPhotos : Int) else 1
    if user.tokens < requiredTokens then
      user
    else
      let user1 := { user with tokens := user.tokens - requiredTokens }
      if callFails then
        { user1 with tokens := user1.tokens + requiredTokens }
      else
        user1

/-! ## Payment-request markers (the `paymentRequests` JS Map) -/

/-- Lookup in the marker map, embedding `paymentRequests.get(k)`. -/
def mapGet (m : List (Nat × Int)) (k : Nat) : Option Int :=
  (m.find? (fun p => p.1 == k)).map (fun p => p.2)

/-- Embedding of `paymentRequests.set(k, v)`: replace an existing entry in
place, else append. -/
def mapSet (m : List (Nat × Int)) (k : Nat) (v : Int) : List (Nat × Int) :=
  if m.any (fun p => p.1 == k) then
    m.map (fun p => if p.1 == k then (k, v) else p)
  else
    m ++ [(k, v)]

/-- Embedding of `paymentRequests.delete(k)`. -/
def mapDelete (m : List (Nat × Int)) (k : Nat) : List (Nat × Int) :=
  m.filter (fun p => p.1 != k)

/-- Embedding of `bot.command('payments')` (src/index.js lines 717-725):
unconditionally stores the current time under the user's id. -/
def botCommandPayments (paymentRequests : List (Nat × Int)) (uid : Nat) (now : Int) :
    List (Nat × Int) :=
  mapSet paymentRequests uid now

/-! ## Payment-proof verifier -/

/-- Fixed details attached to an accepted proof. -/
structure PaymentDetails where
  amount : String
  platform : String
deriving Repr, DecidableEq

/-- Embedding of the verifier's result object. -/
structure VerificationResult where
  valid : Bool
  reason : Option String
  date : Option Int
  details : Option PaymentDetails
deriving Repr, DecidableEq

/-- The four keyword categories of `verifyPaymentProof`, in source order. -/
def requiredKeywords : List (String × List String) :=
  [("payment", ["payment", "paid", "transaction"]),
   ("platform", ["flutterwave", "flutter", "wave"]),
   ("amount", ["1000", "1,000", "ngn1000", "ngn1,000"]),
   ("identifier", ["florence", "flo"])]

/-- Categories none of whose synonyms occur in the (already lowercased)
text, in source order. -/
def missingCategories (text : String) : List String :=
  ((requiredKeywords.filter (fun p => !(p.2.any (fun k => strIncludes text k)))).map
    (fun p => p.1))

/-- True when the character is one of the two separators accepted by the
date regex character class. -/
def isSepChar (c : Char) : Bool := c == '-' || c == '/'

/-- First regex alternative: two digits, separator, two digits, separator,
four digits, read at the head of the character list. -/
def datePat1 : List Char → Bool
  | a :: b :: s :: c :: d :: t :: e :: f :: g :: h :: _ =>
    a.isDigit && b.isDigit && isSepChar s && c.isDigit && d.isDigit && isSepChar t &&
    e.isDigit && f.isDigit && g.isDigit && h.isDigit
  | _ => false

/-- Second regex alternative: four digits, separator, two digits,
separator, two digits, read at the head of the character list. -/
def datePat2 : List Char → Bool
  | a :: b :: c :: d :: s :: e :: f :: t :: g :: h :: _ =>
    a.isDigit && b.isDigit && c.isDigit && d.isDigit && isSepChar s &&
    e.isDigit && f.isDigit && isSepChar t && g.isDigit && h.isDigit
  | _ => false

/-- Fuelled global scan implementing `text.match(dateRegex)` with the `g`
flag: try both alternatives at each position, and on a match emit its ten
characters and resume after them. -/
def scanDatesAux : Nat → List Char → List (List Char)
  | 0, _ => []
  | _, [] => []
  | fuel + 1, c :: rest =>
    if datePat1 (c :: rest) || datePat2 (c :: rest) then
      (c :: rest).take 10 :: scanDatesAux fuel (rest.drop 9)
    else
      scanDatesAux fuel rest

/-- All matches of the date regex in the text, left to right,
non-overlapping. -/
def scanDates (cs : List Char) : List (List Char) :=
  scanDatesAux cs.length cs

/-- Split on `-` and `/`, embedding `dateStr.split(/[-\x2f]/)`. -/
def splitSepsAux (acc : List Char) : List Char → List (List Char)
  | [] => [acc.reverse]
  | c :: rest =>
    if isSepChar c then
      acc.reverse :: splitSepsAux [] rest
    else
      splitSepsAux (c :: acc) rest

/-- Numeric value of a digit string, as JS coerces `"05"` to `5`. -/
def digitsToNat (cs : List Char) : Nat :=
  cs.foldl (fun n c => n * 10 + (c.toNat - 48)) 0

/-- JS `Date` maps a year argument between 0 and 99 to 1900 + that year. -/
def jsYearAdjust (y : Int) : Int :=
  if 0 ≤ y ∧ y ≤ 99 then 1900 + y else y

/-- Day-of-year offset of the first day of month `m` (civil calendar with
March first, per the standard days-from-civil computation). -/
def doyFromMonth (m : Int) : Int :=
  (153 * (m + (if 2 < m then -3 else 9)) + 2).fdiv 5

/-- Days since 1970-01-01 of the civil date (y, m, d) with `m` in 1..12 and
`d` an arbitrary (rolled-over) day count. -/
def daysFromCivil (y m d : Int) : Int :=
  let yAdj := if m ≤ 2 then y - 1 else y
  let era := yAdj.fdiv 400
  let yoe := yAdj - era * 400
  let doy := doyFromMonth m + d - 1
  let doe := yoe * 365 + yoe.fdiv 4 - yoe.fdiv 100 + doy
  era * 146097 + doe - 719468

/-- Milliseconds since the epoch of `new Date(year, monthIdx, day)`, with JS
month and day rollover. -/
def jsDateMs (year monthIdx day : Int) : Int :=
  let total := year * 12 + monthIdx
  let y := total.fdiv 12
  let m := total.emod 12 + 1
  daysFromCivil y m day * 86400000

/-- Embedding of the per-match parse step of `verifyPaymentProof`: split on
separators; a four-character first part is read year-month-day, otherwise
day-month-year; matches that do not split into three parts are discarded. -/
def parseDateMatch (m : List Char) : Option Int :=
  match splitSepsAux [] m with
  | p0 :: p1 :: p2 :: _ =>
    if p0.length = 4 then
      some (jsDateMs (jsYearAdjust (digitsToNat p0)) ((digitsToNat p1 : Int) - 1)
        (digitsToNat p2))
    else
      some (jsDateMs (jsYearAdjust (digitsToNat p2)) ((digitsToNat p1 : Int) - 1)
        (digitsToNat p0))
  | _ => none

/-- Embedding of `Math.max(...validDates)` on a nonempty list. -/
def maxList : List Int → Int
  | [] => 0
  | [x] => x
  | x :: xs => max x (maxList xs)

/-- Date portion of `verifyPaymentProof` (src/index.js lines 609-668), run
on the lowercased text once every keyword category was found: scan for
dates, parse them, and compare the most recent one against the open
request's timestamp with a 24-hour window. -/
def checkDates (text : String) (requestTimestamp : Int) : VerificationResult :=
  let dates := scanDates text.data
  if dates.isEmpty then
    { valid := false, reason := some "No valid date found in payment proof",
      date := none, details := none }
  else
    let validDates := dates.filterMap parseDateMatch
    if validDates.isEmpty then
      { valid := false, reason := some "Could not parse any valid dates from payment proof",
        date := none, details := none }
    else
      let mostRecentDate := maxList validDates
      let timeDifference := (mostRecentDate - requestTimestamp).natAbs
      if 24 * 60 * 60 * 1000 < timeDifference then
        { valid := false, reason := some "Payment date is outside acceptable timeframe",
          date := none, details := none }
      else
        { valid := true, reason := none, date := some mostRecentDate,
          details := some { amount := "1000 NGN", platform := "Flutterwave" } }

/-- Embedding of `verifyPaymentProof` (src/index.js lines 571-677) from the
point where text was extracted from the PDF: lowercase the text, require a
synonym of each keyword category, then run the date checks. -/
def verifyPaymentProof (rawText : String) (requestTimestamp : Int) : VerificationResult :=
  let text := strToLower rawText
  let missing := missingCategories text
  if missing.isEmpty then
    checkDates text requestTimestamp
  else
    { valid := false,
      reason := some ("Missing required information: " ++ String.intercalate ", " missing),
      date := none, details := none }

/-! ## Telegram document handler -/

/-- Embedding of `bot.on('document')` (src/index.js lines 728-762): a
non-PDF upload or a missing payment-request marker leaves everything
unchanged; a fetch failure is caught with no state change; an accepted
proof credits 10 tokens and deletes the marker; a rejected proof changes
nothing, leaving the marker for a retry. -/
def handleDocument (user : TgUser) (paymentRequests : List (Nat × Int)) (isPdf : Bool)
    (proofText : String) (fetchFails : Bool) : TgUser × List (Nat × Int) :=
  if !isPdf then
    (user, paymentRequests)
  else
    match mapGet paymentRequests user.id with
    | none => (user, paymentRequests)
    | some requestTimestamp =>
      if fetchFails then
        (user, paymentRequests)
      else
        let verificationResult := verifyPaymentProof proofText requestTimestamp
        if verificationResult.valid then
          ({ user with tokens := user.tokens + 10 }, mapDelete paymentRequests user.id)
        else
          (user, paymentRequests)

/-! ## Concrete records used by witnesses and counterexamples -/

/-- Idle-reward example user: 2 tokens, last grant at time 0. -/
def uIdle : WaUser :=
  { WaId := "2348000000002", ProfileName := "Chi", tokens := 2, referralId := "C2348000000002",
    streak := 0, lastTokenReward := 0, lastActivity := 0, streakDate := 0 }

/-- Streak example user: streak 9, all clocks at time 0. -/
def uStreak : WaUser :=
  { WaId := "2348000000003", ProfileName := "Dayo", tokens := 2, referralId := "D2348000000003",
    streak := 9, lastTokenReward := 0, lastActivity := 0, streakDate := 0 }

/-! ## C2: streak evaluation -/

/-- C2: streak evaluation on a user record at time `now`: a gap of more
than 48 hours since `lastActivity` resets the streak to 0, stamps
`streakDate := now` and reports `streakBroken` with no reward, ending the
call; otherwise a changed calendar day increments the streak by exactly 1,
stamps `streakDate := now`, and pays 10 tokens exactly when the new streak
is a multiple of 10; otherwise nothing changes. -/
theorem checkAndUpdateStreak_spec (user : WaUser) (now : Nat) :
    (48 * msPerHour < now - user.lastActivity →
      checkAndUpdateStreak user now =
        ({ user with streak := 0, streakDate := now },
         { streakBroken := true, streakReward := 0 })) ∧
    (now - user.lastActivity ≤ 48 * msPerHour → calDay now ≠ calDay user.streakDate →
      ((checkAndUpdateStreak user now).1.streak = user.streak + 1 ∧
       (checkAndUpdateStreak user now).1.streakDate = now ∧
       (checkAndUpdateStreak user now).1.lastActivity = user.lastActivity ∧
       (checkAndUpdateStreak user now).1.lastTokenReward = user.lastTokenReward ∧
       (checkAndUpdateStreak user now).2.streakBroken = false ∧
       ((user.streak + 1) % 10 = 0 →
         (checkAndUpdateStreak user now).1.tokens = user.tokens + 10 ∧
         (checkAndUpdateStreak user now).2.streakReward = 10) ∧
       ((user.streak + 1) % 10 ≠ 0 →
         (checkAndUpdateStreak user now).1.tokens = user.tokens ∧
         (checkAndUpdateStreak user now).2.streakReward = 0))) ∧
    (now - user.lastActivity ≤ 48 * msPerHour → calDay now = calDay user.streakDate →
      checkAndUpdateStreak user now = (user, { streakBroken := false, streakReward := 0 })) := by
  refine ⟨?_, ?_, ?_⟩
  · intro h
    simp [checkAndUpdateStreak, h]
  · intro h1 h2
    have hif : ¬ (48 * msPerHour < now - user.lastActivity) := by omega
    by_cases h3 : (user.streak + 1) % 10 = 0
    · simp [checkAndUpdateStreak, hif, h2, h3]
    · simp [checkAndUpdateStreak, hif, h2, h3]
  · intro h1 h2
    have hif : ¬ (48 * msPerHour < now - user.lastActivity) := by omega
    simp [checkAndUpdateStreak, hif, h2]

/-- Witness for C2: user `uStreak` (streak 9) evaluated 25 hours later
crosses a day boundary and hits the 10-day milestone. -/
theorem checkAndUpdateStreak_spec_witness :
    (checkAndUpdateStreak uStreak (25 * msPerHour)).1.streak = 10 ∧
    (checkAndUpdateStreak uStreak (25 * msPerHour)).1.tokens = 12 ∧
    (checkAndUpdateStreak uStreak (25 * msPerHour)).2.streakReward = 10 := by
  have h := (checkAndUpdateStreak_spec uStreak (25 * msPerHour)).2.1 (by decide) (by decide)
  obtain ⟨h1, -, -, -, -, h6, -⟩ := h
  obtain ⟨h7, h8⟩ := h6 (by decide)
  refine ⟨?_, ?_, ?_⟩
  · rw [h1]; decide
  · rw [h7]; decide
  · exact h8

/-! ## C3: idle-activity reward -/

/-- C3: the idle-activity reward awards a nonzero amount exactly when the
balance is at most 4 and at least 8 hours have elapsed since
`lastTokenReward`; in that case it adds `floor(elapsedHours / 8) * 10`
tokens and stamps `lastTokenReward := now`, and otherwise it returns 0 and
mutates nothing. -/
theorem checkAndUpdateTokenRewards_spec (user : WaUser) (now : Nat) :
    ((checkAndUpdateTokenRewards user now).2 ≠ 0 ↔
      user.tokens ≤ 4 ∧ 8 * msPerHour ≤ now - user.lastTokenReward) ∧
    (user.tokens ≤ 4 → 8 * msPerHour ≤ now - user.lastTokenReward →
      ((checkAndUpdateTokenRewards user now).2 =
         (((now - user.lastTokenReward) / (8 * msPerHour) : Nat) : Int) * 10 ∧
       (checkAndUpdateTokenRewards user now).1 =
         { user with
            tokens := user.tokens +
              (((now - user.lastTokenReward) / (8 * msPerHour) : Nat) : Int) * 10,
            lastTokenReward := now })) ∧
    (¬ (user.tokens ≤ 4 ∧ 8 * msPerHour ≤ now - user.lastTokenReward) →
      checkAndUpdateTokenRewards user now = (user, 0)) := by
  by_cases h : 8 * msPerHour ≤ now - user.lastTokenReward ∧ user.tokens ≤ 4
  · have hrc : 0 < (now - user.lastTokenReward) / (8 * msPerHour) :=
      Nat.div_pos h.1 (by norm_num [msPerHour])
    refine ⟨?_, ?_, ?_⟩
    · simp only [checkAndUpdateTokenRewards, if_pos h]
      constructor
      · intro _; exact ⟨h.2, h.1⟩
      · intro _; omega
    · intro _ _
      simp [checkAndUpdateTokenRewards, h]
    · intro hc
      exact absurd ⟨h.2, h.1⟩ hc
  · refine ⟨?_, ?_, ?_⟩
    · simp only [checkAndUpdateTokenRewards, if_neg h]
      constructor
      · intro hc; exact absurd rfl hc
      · intro hc; exact absurd ⟨hc.2, hc.1⟩ h
    · intro h1 h2; exact absurd ⟨h2, h1⟩ h
    · intro _
      simp [checkAndUpdateTokenRewards, h]

/-- Witness for C3: user `uIdle` (2 tokens) evaluated 17 hours after the
last grant receives `floor(17/8) * 10 = 20` tokens. -/
theorem checkAndUpdateTokenRewards_spec_witness :
    (checkAndUpdateTokenRewards uIdle (17 * msPerHour)).2 = 20 ∧
    (checkAndUpdateTokenRewards uIdle (17 * msPerHour)).1.tokens = 22 := by
  have h := (checkAndUpdateTokenRewards_spec uIdle (17 * msPerHour)).2.1 (by decide) (by decide)
  refine ⟨h.1.trans (by decide), ?_⟩
  rw [h.2]; decide

/-! ## C1 and C4: balance invariant and the refund path -/

/-- The idle-reward step never lowers the balance. -/
lemma rewards_tokens_le (u : WaUser) (now : Nat) :
    u.tokens ≤ ((checkAndUpdateTokenRewards u now).1).tokens := by
  simp only [checkAndUpdateTokenRewards]
  split
  · exact le_add_of_nonneg_right (by positivity)
  · exact le_refl _

/-- The streak step never lowers the balance. -/
lemma streak_tokens_le (u : WaUser) (now : Nat) :
    u.tokens ≤ ((checkAndUpdateStreak u now).1).tokens := by
  simp only [checkAndUpdateStreak]
  split
  · exact le_refl _
  · split
    · split
      · exact le_add_of_nonneg_right (by norm_num)
      · exact le_refl _
    · exact le_refl _

/-- C1 (amended): every Telegram operation preserves a non-negative
balance, and a Telegram spend whose full cost (1 for text, 2 per photo)
exceeds the balance is rejected with no deduction: the record is returned
unchanged.  The WhatsApp route preserves non-negativity for non-media
messages, while its media path only guards against a balance of at most 0
before deducting a flat 2, so it can leave the balance at -1 but never
lower: -1 stays a lower bound from every state at or above -1, hence over
all reachable states. -/
theorem tokens_nonneg_spec (tg : TgUser) (n : Nat) (f : Bool) (pr : List (Nat × Int))
    (isPdf : Bool) (text : String) (ff : Bool) (i now : Nat)
    (wa : WaUser) (msg : WaMsg) :
    (0 ≤ tg.tokens → 0 ≤ (handleTgMessage tg n f).tokens) ∧
    (0 ≤ tg.tokens → 0 ≤ (handleDocument tg pr isPdf text ff).1.tokens) ∧
    0 ≤ (addUser_tg i now).tokens ∧
    (0 ≤ wa.tokens → msg.MessageType ≠ "image" → msg.MessageType ≠ "document" →
      0 ≤ (handleWhatsApp wa msg now f).1.tokens) ∧
    (0 ≤ wa.tokens → -1 ≤ (handleWhatsApp wa msg now f).1.tokens) ∧
    (tg.tokens < (if 0 < n then 2 * (n : Int) else 1) → handleTgMessage tg n f = tg) ∧
    (-1 ≤ wa.tokens → -1 ≤ (handleWhatsApp wa msg now f).1.tokens) := by
  have hwa : 0 ≤ wa.tokens →
      0 ≤ ((checkAndUpdateTokenRewards wa now).1).tokens :=
    fun h => le_trans h (rewards_tokens_le wa now)
  have hstreak : ∀ u : WaUser,
      u.tokens ≤ ((checkAndUpdateStreak (updateUserActivity u now) now).1).tokens :=
    fun u => streak_tokens_le (updateUserActivity u now) now
  refine ⟨?_, ?_, ?_, ?_, ?_, ?_, ?_⟩
  · intro h
    simp only [handleTgMessage]
    by_cases h5 : 5 < n
    · simp [h5, h]
    · simp only [if_neg h5]
      by_cases hn : 0 < n
      · simp only [if_pos hn]
        by_cases hlt : tg.tokens < 2 * (n : Int)
        · simp [hlt, h]
        · simp only [if_neg hlt]
          cases f <;> simp <;> omega
      · simp only [if_neg hn]
        by_cases hlt : tg.tokens < (1 : Int)
        · simp [hlt, h]
        · simp only [if_neg hlt]
          cases f <;> simp <;> omega
  · intro h
    simp only [handleDocument]
    split
    · exact h
    · split
      · exact h
      · split
        · exact h
        · split
          · simp
            omega
          · exact h
  · simp [addUser_tg]
  · intro h hni hnd
    have h1 := hwa h
    have h3 := hstreak (checkAndUpdateTokenRewards wa now).1
    have h2 : (updateUserActivity (checkAndUpdateTokenRewards wa now).1 now).tokens
        = ((checkAndUpdateTokenRewards wa now).1).tokens := rfl
    have hmedia : (msg.MessageType == "image" || msg.MessageType == "document") = false := by
      simp [hni, hnd]
    simp only [handleWhatsApp, hmedia, Bool.false_eq_true, if_false]
    split
    · exact h1
    · split
      · exact h1
      · split
        · dsimp only
          omega
        · dsimp only
          omega
  · intro h
    have h1 := hwa h
    have h3 := hstreak (checkAndUpdateTokenRewards wa now).1
    have h2 : (updateUserActivity (checkAndUpdateTokenRewards wa now).1 now).tokens
        = ((checkAndUpdateTokenRewards wa now).1).tokens := rfl
    simp only [handleWhatsApp]
    split
    · dsimp only
      omega
    · split
      · dsimp only
        omega
      · split
        · split
          · dsimp only
            omega
          · dsimp only
            omega
        · split
          · dsimp only
            omega
          · dsimp only
            omega
  · intro hlt
    simp only [handleTgMessage]
    by_cases h5 : 5 < n
    · rw [if_pos h5]
    · rw [if_neg h5]
      rw [if_pos hlt]
  · intro h
    have h1 : -1 ≤ ((checkAndUpdateTokenRewards wa now).1).tokens :=
      le_trans h (rewards_tokens_le wa now)
    have h3 := hstreak (checkAndUpdateTokenRewards wa now).1
    have h2 : (updateUserActivity (checkAndUpdateTokenRewards wa now).1 now).tokens
        = ((checkAndUpdateTokenRewards wa now).1).tokens := rfl
    simp only [handleWhatsApp]
    split
    · dsimp only
      omega
    · split
      · dsimp only
        omega
      · split
        · split
          · dsimp only
            omega
          · dsimp only
            omega
        · split
          · dsimp only
            omega
          · dsimp only
            omega

/-- WhatsApp user with a single token, about to send one image. -/
def uC1 : WaUser :=
  { WaId := "2348000000004", ProfileName := "Efe", tokens := 1, referralId := "E2348000000004",
    streak := 0, lastTokenReward := 0, lastActivity := 0, streakDate := 0 }

/-- An image message with one media item. -/
def mC1 : WaMsg := { Body := "explain this image", MessageType := "image", NumMedia := 1 }

/-- Counterexample for C1 as stated: a WhatsApp user with 1 token sending
an image passes the balance guard (which only rejects at 0 or below) and is
charged 2, ending at -1. -/
theorem tokens_nonneg_cex :
    0 ≤ uC1.tokens ∧ (handleWhatsApp uC1 mC1 0 false).1.tokens < 0 := by
  decide

/-- Witness for C1 (amended): a fresh Telegram user sending a plain text
message keeps a non-negative balance, and a Telegram user with 3 tokens
sending 2 photos (cost 4) is rejected with the record unchanged. -/
theorem tokens_nonneg_spec_witness :
    0 ≤ (handleTgMessage (addUser_tg 42 0) 0 false).tokens ∧
    handleTgMessage { id := 43, tokens := 3, streak := 0, lastActive := 0 } 2 false =
      { id := 43, tokens := 3, streak := 0, lastActive := 0 } := by
  constructor
  · exact (tokens_nonneg_spec (addUser_tg 42 0) 0 false [] true "" false 0 0 uC1 mC1).1
      (by decide)
  · exact (tokens_nonneg_spec { id := 43, tokens := 3, streak := 0, lastActive := 0 } 2 false
      [] true "" false 0 0 uC1 mC1).2.2.2.2.2.1 (by decide)

/-- C4 (amended): on the Telegram channel a failure after the deduction
refunds exactly what was deducted, leaving the record as it was; on the
WhatsApp channel the resulting user state is identical whether or not the
model call fails, i.e. no refund ever happens there. -/
theorem refund_spec (tg : TgUser) (n : Nat) (wa : WaUser) (msg : WaMsg) (now : Nat) :
    handleTgMessage tg n true = tg ∧
    (handleWhatsApp wa msg now true).1 = (handleWhatsApp wa msg now false).1 := by
  constructor
  · simp only [handleTgMessage]
    by_cases h5 : 5 < n
    · simp [h5]
    · simp only [if_neg h5]
      by_cases hn : 0 < n
      · simp only [if_pos hn]
        by_cases hlt : tg.tokens < 2 * (n : Int)
        · simp [hlt]
        · simp only [if_neg hlt]
          cases tg
          simp
      · simp only [if_neg hn]
        by_cases hlt : tg.tokens < (1 : Int)
        · simp [hlt]
        · simp only [if_neg hlt]
          cases tg
          simp
  · simp only [handleWhatsApp]
    split
    · rfl
    · split
      · rfl
      · split
        · split <;> rfl
        · split <;> rfl

/-- WhatsApp user with 5 tokens sending plain text. -/
def uC4 : WaUser :=
  { WaId := "2348000000005", ProfileName := "Femi", tokens := 5, referralId := "F2348000000005",
    streak := 0, lastTokenReward := 0, lastActivity := 0, streakDate := 0 }

/-- A plain text prompt. -/
def mC4 : WaMsg := { Body := "hello", MessageType := "text", NumMedia := 0 }

/-- Counterexample for C4 as stated: on the WhatsApp route a failing model
call still leaves the balance reduced by the spend (5 becomes 4, not
restored). -/
theorem refund_cex :
    (handleWhatsApp uC4 mC4 0 true).2 = true ∧
    (handleWhatsApp uC4 mC4 0 true).1.tokens ≠ uC4.tokens := by
  decide

/-! ## C9: activity stamping and evaluation order -/

/-- Tokens deducted by the WhatsApp prompt path, by message type. -/
def waSpendCost (msg : WaMsg) : Int :=
  if msg.MessageType == "image" || msg.MessageType == "document" then
    (if 5 < msg.NumMedia then 0 else 2)
  else if msg.MessageType == "text" then 1 else 0

/-- C9 (amended): on Telegram the middleware stamps `lastActive := now`
once per inbound message but no reward or streak evaluation ever runs (the
message handler leaves `lastActive` and `streak` untouched); on WhatsApp a
command message runs only the idle-reward evaluation and never touches
`lastActivity` or the streak state, while a prompt message with a positive
post-reward balance stamps `lastActivity := now` once, after the
idle-reward evaluation and before the streak evaluation, and then spends. -/
theorem activity_spec (tg : TgUser) (n now : Nat) (f : Bool) (wa : WaUser) (msg : WaMsg) :
    ((tgTouchActivity tg now).lastActive = now ∧
     (tgTouchActivity tg now).tokens = tg.tokens ∧
     (tgTouchActivity tg now).streak = tg.streak) ∧
    ((handleTgMessage tg n f).lastActive = tg.lastActive ∧
     (handleTgMessage tg n f).streak = tg.streak) ∧
    (isWaCommand msg.Body = true →
      ((handleWhatsApp wa msg now f).1 = (checkAndUpdateTokenRewards wa now).1 ∧
       ((checkAndUpdateTokenRewards wa now).1).lastActivity = wa.lastActivity ∧
       ((checkAndUpdateTokenRewards wa now).1).streakDate = wa.streakDate ∧
       ((checkAndUpdateTokenRewards wa now).1).streak = wa.streak)) ∧
    (isWaCommand msg.Body = false → 0 < ((checkAndUpdateTokenRewards wa now).1).tokens →
      (handleWhatsApp wa msg now f).1 =
        { (checkAndUpdateStreak (updateUserActivity (checkAndUpdateTokenRewards wa now).1 now)
            now).1 with
          tokens :=
            ((checkAndUpdateStreak (updateUserActivity (checkAndUpdateTokenRewards wa now).1 now)
              now).1).tokens - waSpendCost msg }) := by
  refine ⟨⟨rfl, rfl, rfl⟩, ?_, ?_, ?_⟩
  · simp only [handleTgMessage]
    by_cases h5 : 5 < n
    · rw [if_pos h5]
      exact ⟨rfl, rfl⟩
    · rw [if_neg h5]
      by_cases hn : 0 < n
      · rw [if_pos hn]
        by_cases hlt : tg.tokens < 2 * (n : Int)
        · rw [if_pos hlt]
          exact ⟨rfl, rfl⟩
        · rw [if_neg hlt]
          cases f
          · exact ⟨rfl, rfl⟩
          · exact ⟨rfl, rfl⟩
      · rw [if_neg hn]
        by_cases hlt : tg.tokens < (1 : Int)
        · rw [if_pos hlt]
          exact ⟨rfl, rfl⟩
        · rw [if_neg hlt]
          cases f
          · exact ⟨rfl, rfl⟩
          · exact ⟨rfl, rfl⟩
  · intro hc
    have hl : ((checkAndUpdateTokenRewards wa now).1).lastActivity = wa.lastActivity := by
      simp only [checkAndUpdateTokenRewards]
      split <;> rfl
    have hs : ((checkAndUpdateTokenRewards wa now).1).streakDate = wa.streakDate := by
      simp only [checkAndUpdateTokenRewards]
      split <;> rfl
    have hk : ((checkAndUpdateTokenRewards wa now).1).streak = wa.streak := by
      simp only [checkAndUpdateTokenRewards]
      split <;> rfl
    refine ⟨?_, hl, hs, hk⟩
    simp [handleWhatsApp, hc]
  · intro hc hpos
    simp only [handleWhatsApp, hc, Bool.false_eq_true, if_false]
    rw [if_neg (by omega)]
    split
    · rename_i hm
      split
      · rename_i h5
        have hcost : waSpendCost msg = 0 := by
          simp [waSpendCost, hm, h5]
        rw [hcost, sub_zero]
      · rename_i h5
        have hcost : waSpendCost msg = 2 := by
          simp [waSpendCost, hm, h5]
        rw [hcost]
    · rename_i hm
      split
      · rename_i ht
        have hcost : waSpendCost msg = 1 := by
          simp [waSpendCost, hm, ht]
        rw [hcost]
      · rename_i ht
        have hcost : waSpendCost msg = 0 := by
          simp [waSpendCost, hm, ht]
        rw [hcost, sub_zero]

/-- Witness for C9 (amended): a plain text prompt from `uC4` a day later
follows the idle-reward / stamp-activity / streak / spend pipeline. -/
theorem activity_spec_witness :
    (handleWhatsApp uC4 mC4 86400000 false).1 =
      { WaId := "2348000000005", ProfileName := "Femi", tokens := 4,
        referralId := "F2348000000005", streak := 1, lastTokenReward := 0,
        lastActivity := 86400000, streakDate := 86400000 } := by
  have h := (activity_spec (addUser_tg 1 0) 0 86400000 false uC4 mC4).2.2.2
    (by decide) (by decide)
  exact h.trans (by decide)

/-- WhatsApp user with all clocks at time 0 and a comfortable balance. -/
def uC9 : WaUser :=
  { WaId := "2348000000006", ProfileName := "Gozie", tokens := 5, referralId := "G2348000000006",
    streak := 3, lastTokenReward := 0, lastActivity := 0, streakDate := 0 }

/-- A `/tokens` command message. -/
def mC9 : WaMsg := { Body := "/tokens", MessageType := "text", NumMedia := 0 }

/-- Counterexample for C9 as stated: a `/tokens` command arriving 5 days
later leaves `lastActivity` at 0 (never stamped) and leaves `streakDate`
untouched even though any streak evaluation (break or increment) would
have stamped it; so neither the activity update nor the streak evaluation
happened for this inbound message. -/
theorem activity_cex :
    (handleWhatsApp uC9 mC9 432000000 false).1.lastActivity = 0 ∧
    (handleWhatsApp uC9 mC9 432000000 false).1.lastActivity ≠ 432000000 ∧
    (handleWhatsApp uC9 mC9 432000000 false).1.streakDate = 0 := by
  decide

/-! ## C5: keyword categories of the verifier -/

/-- The executable JS-style check agrees with the mathematical prefix
relation. -/
lemma listStartsWith_iff (n h : List Char) : listStartsWith n h = true ↔ n <+: h := by
  induction n generalizing h with
  | nil => simp [listStartsWith, List.nil_prefix]
  | cons a as ih =>
    cases h with
    | nil => simp [listStartsWith]
    | cons b bs => simp [listStartsWith, List.cons_prefix_cons, ih, And.comm]

/-- The executable JS-style check agrees with the mathematical infix
relation. -/
lemma listContains_iff (n h : List Char) : listContains n h = true ↔ n <:+: h := by
  induction h with
  | nil => simp [listContains, listStartsWith_iff, List.infix_nil, List.prefix_nil]
  | cons c rest ih => simp [listContains, listStartsWith_iff, ih, List.infix_cons_iff]

/-- JS `includes` agrees with substring occurrence. -/
lemma strIncludes_iff (hay needle : String) :
    strIncludes hay needle = true ↔ needle.data <:+: hay.data :=
  listContains_iff needle.data hay.data

/-- Membership in the missing-category list means every synonym of that
category is absent from the text. -/
lemma mem_missingCategories (t : String) (cat : String) :
    cat ∈ missingCategories t ↔
      ∃ kws, (cat, kws) ∈ requiredKeywords ∧ ∀ k ∈ kws, ¬ k.data <:+: t.data := by
  simp only [missingCategories, List.mem_map, List.mem_filter]
  constructor
  · rintro ⟨⟨c, kws⟩, ⟨hmem, hall⟩, rfl⟩
    refine ⟨kws, hmem, ?_⟩
    intro k hk
    rw [← strIncludes_iff]
    simp only [Bool.not_eq_true', List.any_eq_false] at hall
    simp [hall k hk]
  · rintro ⟨kws, hmem, hall⟩
    refine ⟨(cat, kws), ⟨hmem, ?_⟩, rfl⟩
    simp only [Bool.not_eq_true', List.any_eq_false]
    intro k hk
    rw [strIncludes_iff]
    exact hall k hk

/-- C5: verification lower-cases the text and requires, for each of the
four keyword categories, that some synonym occur as a substring; the
missing categories are reported comma-joined after a fixed prefix, and
only when none is missing does date checking run. -/
theorem verifyPaymentProof_keywords_spec (rawText : String) (ts : Int) :
    (missingCategories (strToLower rawText) = [] ↔
      ∀ p ∈ requiredKeywords, ∃ k ∈ p.2, k.data <:+: (strToLower rawText).data) ∧
    (∀ cat, cat ∈ missingCategories (strToLower rawText) ↔
      ∃ kws, (cat, kws) ∈ requiredKeywords ∧ ∀ k ∈ kws, ¬ k.data <:+: (strToLower rawText).data) ∧
    (missingCategories (strToLower rawText) ≠ [] →
      verifyPaymentProof rawText ts =
        { valid := false,
          reason := some ("Missing required information: " ++
            String.intercalate ", " (missingCategories (strToLower rawText))),
          date := none, details := none }) ∧
    (missingCategories (strToLower rawText) = [] →
      verifyPaymentProof rawText ts = checkDates (strToLower rawText) ts) := by
  refine ⟨?_, fun cat => mem_missingCategories (strToLower rawText) cat, ?_, ?_⟩
  · simp only [missingCategories, List.map_eq_nil_iff, List.filter_eq_nil_iff,
      Bool.not_eq_true, Bool.not_eq_false', List.any_eq_true]
    constructor
    · intro h p hp
      have := h p hp
      obtain ⟨k, hk, hs⟩ := this
      exact ⟨k, hk, (strIncludes_iff _ _).mp hs⟩
    · intro h p hp
      obtain ⟨k, hk, hs⟩ := h p hp
      exact ⟨k, hk, (strIncludes_iff _ _).mpr hs⟩
  · intro h
    simp only [verifyPaymentProof]
    rw [if_neg (by simpa [List.isEmpty_iff] using h)]
  · intro h
    simp only [verifyPaymentProof]
    rw [if_pos (by simpa [List.isEmpty_iff] using h)]

/-- Witness for C5: a proof text naming payment, platform and amount but
no identifier is rejected with the identifier category in the reason. -/
theorem verifyPaymentProof_keywords_spec_witness :
    verifyPaymentProof "Payment successful via Flutterwave, NGN1000, date 05/03/2025" 0 =
      { valid := false, reason := some "Missing required information: identifier",
        date := none, details := none } := by
  have h := (verifyPaymentProof_keywords_spec
    "Payment successful via Flutterwave, NGN1000, date 05/03/2025" 0).2.2.1 (by decide)
  exact h.trans (by decide)

/-! ## C6: date extraction and parsing -/

/-- Shape of the first regex alternative: digit pair, separator, digit
pair, separator, digit quadruple, where each separator is independently
either a dash or a slash. -/
def IsShape224 : List Char → Prop
  | [c0, c1, c2, c3, c4, c5, c6, c7, c8, c9] =>
    c0.isDigit = true ∧ c1.isDigit = true ∧ isSepChar c2 = true ∧
    c3.isDigit = true ∧ c4.isDigit = true ∧ isSepChar c5 = true ∧
    c6.isDigit = true ∧ c7.isDigit = true ∧ c8.isDigit = true ∧ c9.isDigit = true
  | _ => False

/-- Shape of the second regex alternative: digit quadruple, separator,
digit pair, separator, digit pair, separators independently dash or
slash. -/
def IsShape422 : List Char → Prop
  | [c0, c1, c2, c3, c4, c5, c6, c7, c8, c9] =>
    c0.isDigit = true ∧ c1.isDigit = true ∧ c2.isDigit = true ∧
    c3.isDigit = true ∧ isSepChar c4 = true ∧ c5.isDigit = true ∧
    c6.isDigit = true ∧ isSepChar c7 = true ∧ c8.isDigit = true ∧ c9.isDigit = true
  | _ => False

/-- A position where one of the regex alternatives fires yields a
ten-character match of the corresponding shape. -/
lemma shape_of_pat (cs : List Char)
    (h : (datePat1 cs || datePat2 cs) = true) :
    IsShape224 (cs.take 10) ∨ IsShape422 (cs.take 10) := by
  rcases cs with _ | ⟨c0, _ | ⟨c1, _ | ⟨c2, _ | ⟨c3, _ | ⟨c4, _ | ⟨c5, _ | ⟨c6, _ | ⟨c7, _ |
    ⟨c8, _ | ⟨c9, rest⟩⟩⟩⟩⟩⟩⟩⟩⟩⟩ <;>
      simp only [datePat1, datePat2, Bool.or_eq_true, Bool.and_eq_true, Bool.or_self] at h
  all_goals try exact absurd h (by decide)
  rcases h with h | h
  · left
    show IsShape224 [c0, c1, c2, c3, c4, c5, c6, c7, c8, c9]
    simp only [IsShape224]
    tauto
  · right
    show IsShape422 [c0, c1, c2, c3, c4, c5, c6, c7, c8, c9]
    simp only [IsShape422]
    tauto

/-- Every match emitted by the fuelled scan has one of the two shapes. -/
lemma scanDatesAux_shape (fuel : Nat) :
    ∀ cs, ∀ m ∈ scanDatesAux fuel cs, IsShape224 m ∨ IsShape422 m := by
  induction fuel with
  | zero =>
    intro cs m hm
    simp [scanDatesAux] at hm
  | succ n ih =>
    intro cs m hm
    cases cs with
    | nil => simp [scanDatesAux] at hm
    | cons c rest =>
      rw [scanDatesAux] at hm
      by_cases hp : (datePat1 (c :: rest) || datePat2 (c :: rest)) = true
      · rw [if_pos hp] at hm
        rcases List.mem_cons.mp hm with rfl | hm1
        · exact shape_of_pat _ hp
        · exact ih _ _ hm1
      · rw [if_neg hp] at hm
        exact ih _ _ hm

/-- Every match found by the date scan has one of the two regex shapes. -/
lemma scanDates_shape (cs : List Char) :
    ∀ m ∈ scanDates cs, IsShape224 m ∨ IsShape422 m :=
  scanDatesAux_shape cs.length cs

/-- A digit character is not a separator. -/
lemma digit_not_sep (c : Char) (h : c.isDigit = true) : isSepChar c = false := by
  by_cases h1 : c = '-'
  · subst h1
    exact absurd h (by decide)
  · by_cases h2 : c = '/'
    · subst h2
      exact absurd h (by decide)
    · simp [isSepChar, h1, h2]

/-- A match of the two-two-four shape is parsed day-month-year: the first
token has two digits, so the code takes the third token as the year. -/
lemma parse_dmy (c0 c1 c2 c3 c4 c5 c6 c7 c8 c9 : Char)
    (h0 : c0.isDigit = true) (h1 : c1.isDigit = true) (h2 : isSepChar c2 = true)
    (h3 : c3.isDigit = true) (h4 : c4.isDigit = true) (h5 : isSepChar c5 = true)
    (h6 : c6.isDigit = true) (h7 : c7.isDigit = true) (h8 : c8.isDigit = true)
    (h9 : c9.isDigit = true) :
    parseDateMatch [c0, c1, c2, c3, c4, c5, c6, c7, c8, c9] =
      some (jsDateMs (jsYearAdjust (digitsToNat [c6, c7, c8, c9]))
        ((digitsToNat [c3, c4] : Int) - 1) (digitsToNat [c0, c1])) := by
  have n0 := digit_not_sep c0 h0
  have n1 := digit_not_sep c1 h1
  have n3 := digit_not_sep c3 h3
  have n4 := digit_not_sep c4 h4
  have n6 := digit_not_sep c6 h6
  have n7 := digit_not_sep c7 h7
  have n8 := digit_not_sep c8 h8
  have n9 := digit_not_sep c9 h9
  simp [parseDateMatch, splitSepsAux, n0, n1, h2, n3, n4, h5, n6, n7, n8, n9]

/-- A match of the four-two-two shape is parsed year-month-day: the first
token has four digits. -/
lemma parse_ymd (c0 c1 c2 c3 c4 c5 c6 c7 c8 c9 : Char)
    (h0 : c0.isDigit = true) (h1 : c1.isDigit = true) (h2 : c2.isDigit = true)
    (h3 : c3.isDigit = true) (h4 : isSepChar c4 = true) (h5 : c5.isDigit = true)
    (h6 : c6.isDigit = true) (h7 : isSepChar c7 = true) (h8 : c8.isDigit = true)
    (h9 : c9.isDigit = true) :
    parseDateMatch [c0, c1, c2, c3, c4, c5, c6, c7, c8, c9] =
      some (jsDateMs (jsYearAdjust (digitsToNat [c0, c1, c2, c3]))
        ((digitsToNat [c5, c6] : Int) - 1) (digitsToNat [c8, c9])) := by
  have n0 := digit_not_sep c0 h0
  have n1 := digit_not_sep c1 h1
  have n2 := digit_not_sep c2 h2
  have n3 := digit_not_sep c3 h3
  have n5 := digit_not_sep c5 h5
  have n6 := digit_not_sep c6 h6
  have n8 := digit_not_sep c8 h8
  have n9 := digit_not_sep c9 h9
  simp [parseDateMatch, splitSepsAux, n0, n1, n2, n3, h4, n5, n6, h7, n8, n9]

/-- C6 (amended): the scan finds exactly the ten-character substrings made
of a digit pair, separator, digit pair, separator, digit quadruple, or a
digit quadruple, separator, digit pair, separator, digit pair, with each
separator independently a dash or a slash (so mixed separators and
YYYY/MM/DD also match, beyond the three formats the claim lists); when no
substring matches, the result is the fixed no-date rejection; a match
whose first token has four digits parses year-month-day and otherwise
day-month-year; and when no parsed date remains the result is the fixed
unparseable-date rejection. -/
theorem verifyPaymentProof_dates_spec (rawText : String) (ts : Int) :
    (∀ m ∈ scanDates (strToLower rawText).data, IsShape224 m ∨ IsShape422 m) ∧
    (missingCategories (strToLower rawText) = [] →
      scanDates (strToLower rawText).data = [] →
      verifyPaymentProof rawText ts =
        { valid := false, reason := some "No valid date found in payment proof",
          date := none, details := none }) ∧
    (∀ c0 c1 c2 c3 c4 c5 c6 c7 c8 c9 : Char,
      IsShape224 [c0, c1, c2, c3, c4, c5, c6, c7, c8, c9] →
      parseDateMatch [c0, c1, c2, c3, c4, c5, c6, c7, c8, c9] =
        some (jsDateMs (jsYearAdjust (digitsToNat [c6, c7, c8, c9]))
          ((digitsToNat [c3, c4] : Int) - 1) (digitsToNat [c0, c1]))) ∧
    (∀ c0 c1 c2 c3 c4 c5 c6 c7 c8 c9 : Char,
      IsShape422 [c0, c1, c2, c3, c4, c5, c6, c7, c8, c9] →
      parseDateMatch [c0, c1, c2, c3, c4, c5, c6, c7, c8, c9] =
        some (jsDateMs (jsYearAdjust (digitsToNat [c0, c1, c2, c3]))
          ((digitsToNat [c5, c6] : Int) - 1) (digitsToNat [c8, c9]))) ∧
    (missingCategories (strToLower rawText) = [] →
      (scanDates (strToLower rawText).data).filterMap parseDateMatch = [] →
      verifyPaymentProof rawText ts =
        { valid := false,
          reason := some "Could not parse any valid dates from payment proof",
          date := none, details := none } ∨
      scanDates (strToLower rawText).data = []) := by
  refine ⟨scanDates_shape _, ?_, ?_, ?_, ?_⟩
  · intro hmiss hscan
    simp only [verifyPaymentProof]
    rw [if_pos (by simpa [List.isEmpty_iff] using hmiss)]
    simp only [checkDates, hscan]
    rfl
  · intro c0 c1 c2 c3 c4 c5 c6 c7 c8 c9 hs
    simp only [IsShape224] at hs
    obtain ⟨h0, h1, h2, h3, h4, h5, h6, h7, h8, h9⟩ := hs
    exact parse_dmy c0 c1 c2 c3 c4 c5 c6 c7 c8 c9 h0 h1 h2 h3 h4 h5 h6 h7 h8 h9
  · intro c0 c1 c2 c3 c4 c5 c6 c7 c8 c9 hs
    simp only [IsShape422] at hs
    obtain ⟨h0, h1, h2, h3, h4, h5, h6, h7, h8, h9⟩ := hs
    exact parse_ymd c0 c1 c2 c3 c4 c5 c6 c7 c8 c9 h0 h1 h2 h3 h4 h5 h6 h7 h8 h9
  · intro hmiss hpe
    by_cases hscan : scanDates (strToLower rawText).data = []
    · exact Or.inr hscan
    · left
      simp only [verifyPaymentProof]
      rw [if_pos (by simpa [List.isEmpty_iff] using hmiss)]
      simp only [checkDates]
      rw [if_neg (by simpa [List.isEmpty_iff] using hscan)]
      rw [hpe]
      rfl

/-- Witness for C6 (amended): a proof text with all four keyword
categories but no date-like substring is rejected with the no-date
reason. -/
theorem verifyPaymentProof_dates_spec_witness :
    verifyPaymentProof "paid wave flo 1,000" 0 =
      { valid := false, reason := some "No valid date found in payment proof",
        date := none, details := none } := by
  exact (verifyPaymentProof_dates_spec "paid wave flo 1,000" 0).2.1 (by decide) (by decide)

/-- Dates in exactly the three formats the claim lists, DD/MM/YYYY,
DD-MM-YYYY or YYYY-MM-DD, read at the head of the character list.  This
definition follows the claim's words, for comparison with the regex of the
code. -/
def specDatePat : List Char → Bool
  | c0 :: c1 :: c2 :: c3 :: c4 :: c5 :: c6 :: c7 :: c8 :: c9 :: _ =>
    (c0.isDigit && c1.isDigit && c2 == '/' && c3.isDigit && c4.isDigit && c5 == '/' &&
      c6.isDigit && c7.isDigit && c8.isDigit && c9.isDigit) ||
    (c0.isDigit && c1.isDigit && c2 == '-' && c3.isDigit && c4.isDigit && c5 == '-' &&
      c6.isDigit && c7.isDigit && c8.isDigit && c9.isDigit) ||
    (c0.isDigit && c1.isDigit && c2.isDigit && c3.isDigit && c4 == '-' && c5.isDigit &&
      c6.isDigit && c7 == '-' && c8.isDigit && c9.isDigit)
  | _ => false

/-- Scan for exactly the claim's three formats, mirroring the structure of
the code's scan. -/
def scanSpecDatesAux : Nat → List Char → List (List Char)
  | 0, _ => []
  | _, [] => []
  | fuel + 1, c :: rest =>
    if specDatePat (c :: rest) then
      (c :: rest).take 10 :: scanSpecDatesAux fuel (rest.drop 9)
    else
      scanSpecDatesAux fuel rest

/-- All matches of the claim's three formats in the text. -/
def scanSpecDates (cs : List Char) : List (List Char) :=
  scanSpecDatesAux cs.length cs

/-- Counterexample for C6 as stated: a proof text whose only date is
written 2025/03/05 contains no substring in the three formats the claim
lists, so the claim predicts rejection; the code's regex matches it and
the verification succeeds. -/
theorem verifyPaymentProof_dates_cex :
    scanSpecDates (strToLower "payment flutterwave florence 1000 on 2025/03/05").data = [] ∧
    (verifyPaymentProof "payment flutterwave florence 1000 on 2025/03/05"
      (jsDateMs 2025 2 5)).valid = true := by
  constructor
  · decide
  · decide

/-! ## C7: latest date and the 24-hour window -/

/-- Every element is bounded by the list maximum. -/
lemma le_maxList (l : List Int) : ∀ x ∈ l, x ≤ maxList l := by
  induction l with
  | nil =>
    intro x hx
    simp at hx
  | cons a as ih =>
    intro x hx
    cases as with
    | nil =>
      simp only [List.mem_singleton] at hx
      subst hx
      simp [maxList]
    | cons b bs =>
      rcases List.mem_cons.mp hx with rfl | hx1
      · simp [maxList]
      · exact le_trans (ih x hx1) (by simp [maxList])

/-- The maximum of a nonempty list is one of its elements. -/
lemma maxList_mem (l : List Int) (h : l ≠ []) : maxList l ∈ l := by
  induction l with
  | nil => exact absurd rfl h
  | cons a as ih =>
    cases as with
    | nil => simp [maxList]
    | cons b bs =>
      have hmem := ih (List.cons_ne_nil b bs)
      rcases le_total a (maxList (b :: bs)) with hle | hle
      · have heq : maxList (a :: b :: bs) = maxList (b :: bs) := by
          simp [maxList, max_eq_right hle]
        rw [heq]
        exact List.mem_cons_of_mem a hmem
      · have heq : maxList (a :: b :: bs) = a := by
          simp [maxList, max_eq_left hle]
        rw [heq]
        exact List.mem_cons_self a _

/-- C7: once the keyword categories pass and at least one date parses, the
verifier selects the chronologically latest parsed date, accepts exactly
when its absolute distance to the open request's timestamp is at most
24 hours (returning that date and the fixed details), and rejects with the
timeframe reason otherwise. -/
theorem verifyPaymentProof_window_spec (rawText : String) (ts : Int)
    (hmiss : missingCategories (strToLower rawText) = [])
    (hvd : (scanDates (strToLower rawText).data).filterMap parseDateMatch ≠ []) :
    (∀ d ∈ (scanDates (strToLower rawText).data).filterMap parseDateMatch,
      d ≤ maxList ((scanDates (strToLower rawText).data).filterMap parseDateMatch)) ∧
    maxList ((scanDates (strToLower rawText).data).filterMap parseDateMatch) ∈
      (scanDates (strToLower rawText).data).filterMap parseDateMatch ∧
    ((maxList ((scanDates (strToLower rawText).data).filterMap parseDateMatch) - ts).natAbs
        ≤ 24 * 60 * 60 * 1000 →
      verifyPaymentProof rawText ts =
        { valid := true, reason := none,
          date := some (maxList ((scanDates (strToLower rawText).data).filterMap parseDateMatch)),
          details := some { amount := "1000 NGN", platform := "Flutterwave" } }) ∧
    (24 * 60 * 60 * 1000 <
        (maxList ((scanDates (strToLower rawText).data).filterMap parseDateMatch) - ts).natAbs →
      verifyPaymentProof rawText ts =
        { valid := false, reason := some "Payment date is outside acceptable timeframe",
          date := none, details := none }) := by
  have hscan : scanDates (strToLower rawText).data ≠ [] := by
    intro h
    apply hvd
    rw [h]
    rfl
  refine ⟨le_maxList _, maxList_mem _ hvd, ?_, ?_⟩
  · intro hle
    simp only [verifyPaymentProof]
    rw [if_pos (by simpa [List.isEmpty_iff] using hmiss)]
    simp only [checkDates]
    rw [if_neg (by simpa [List.isEmpty_iff] using hscan)]
    rw [if_neg (by simpa [List.isEmpty_iff] using hvd)]
    rw [if_neg (by omega)]
  · intro hgt
    simp only [verifyPaymentProof]
    rw [if_pos (by simpa [List.isEmpty_iff] using hmiss)]
    simp only [checkDates]
    rw [if_neg (by simpa [List.isEmpty_iff] using hscan)]
    rw [if_neg (by simpa [List.isEmpty_iff] using hvd)]
    rw [if_pos hgt]

/-- Witness for C7: a proof carrying 05-03-2025 and 06-03-2025 with a
request opened on 05-03-2025 is accepted with the later date, exactly
24 hours away. -/
theorem verifyPaymentProof_window_spec_witness :
    verifyPaymentProof "paid wave flo 1,000 05-03-2025 and 06-03-2025" (jsDateMs 2025 2 5) =
      { valid := true, reason := none, date := some 1741219200000,
        details := some { amount := "1000 NGN", platform := "Flutterwave" } } := by
  have h := (verifyPaymentProof_window_spec "paid wave flo 1,000 05-03-2025 and 06-03-2025"
    (jsDateMs 2025 2 5) (by decide) (by decide)).2.2.1 (by decide)
  exact h.trans (by decide)

/-! ## C8 and C10: payment-request markers and crediting -/

/-- Setting a key that is not at the head commutes with the head. -/
lemma mapSet_cons_ne (p : Nat × Int) (rest : List (Nat × Int)) (k : Nat) (v : Int)
    (hp : p.1 ≠ k) : mapSet (p :: rest) k v = p :: mapSet rest k v := by
  have hb : (p.1 == k) = false := by simp [hp]
  simp only [mapSet, List.any_cons, List.map_cons, hb, Bool.false_or, Bool.false_eq_true,
    if_false]
  split
  · rfl
  · rfl

/-- Setting a marker stores the new value under the key. -/
lemma mapGet_mapSet_self (m : List (Nat × Int)) (k : Nat) (v : Int) :
    mapGet (mapSet m k v) k = some v := by
  induction m with
  | nil => simp [mapSet, mapGet, List.find?]
  | cons p rest ih =>
    by_cases hp : p.1 = k
    · have hb : (p.1 == k) = true := by simp [hp]
      have hany : ((p :: rest).any (fun q => q.1 == k)) = true := by
        simp [List.any_cons, hb]
      simp only [mapSet, hany, if_true, List.map_cons]
      simp [mapGet, List.find?, hb]
    · rw [mapSet_cons_ne p rest k v hp]
      have hb : (p.1 == k) = false := by simp [hp]
      simp only [mapGet, List.find?, hb]
      exact ih

/-- Deleting a marker removes the key. -/
lemma mapGet_mapDelete_self (m : List (Nat × Int)) (k : Nat) :
    mapGet (mapDelete m k) k = none := by
  induction m with
  | nil => rfl
  | cons p rest ih =>
    by_cases hp : p.1 = k
    · have hb : (p.1 != k) = false := by simp [hp]
      simp only [mapDelete, List.filter_cons, hb, Bool.false_eq_true, if_false]
      simp only [mapDelete] at ih
      exact ih
    · have hb : (p.1 != k) = true := by simp [hp]
      have hb2 : (p.1 == k) = false := by simp [hp]
      simp only [mapDelete, List.filter_cons, hb, if_true]
      simp only [mapGet, List.find?, hb2]
      simp only [mapDelete, mapGet] at ih
      exact ih

/-- C8: a `/payments` declaration unconditionally stores the new timestamp
under the user's id; an accepted proof deletes the marker; a rejected
proof, a non-PDF upload, and a submission without a marker all leave the
marker map unchanged. -/
theorem paymentMarker_lifecycle (m : List (Nat × Int)) (uid : Nat) (now : Int)
    (user : TgUser) (pr : List (Nat × Int)) (text : String) (ts : Int) :
    mapGet (botCommandPayments m uid now) uid = some now ∧
    (mapGet pr user.id = some ts → (verifyPaymentProof text ts).valid = true →
      ((handleDocument user pr true text false).2 = mapDelete pr user.id ∧
       mapGet (handleDocument user pr true text false).2 user.id = none)) ∧
    (mapGet pr user.id = some ts → (verifyPaymentProof text ts).valid = false →
      (handleDocument user pr true text false).2 = pr) ∧
    (handleDocument user pr false text false).2 = pr ∧
    (mapGet pr user.id = none → (handleDocument user pr true text false).2 = pr) := by
  refine ⟨mapGet_mapSet_self m uid now, ?_, ?_, ?_, ?_⟩
  · intro hm hv
    constructor
    · simp [handleDocument, hm, hv]
    · simp [handleDocument, hm, hv, mapGet_mapDelete_self]
  · intro hm hv
    simp [handleDocument, hm, hv]
  · simp [handleDocument]
  · intro hm
    simp [handleDocument, hm]

/-- Witness for C8: opening a request stores the timestamp, and an
accepted proof consumes the only marker. -/
theorem paymentMarker_lifecycle_witness :
    mapGet (botCommandPayments [] 7 1741132800000) 7 = some 1741132800000 ∧
    (handleDocument (addUser_tg 7 0) [(7, jsDateMs 2025 2 5)] true
      "Payment successful via Flutterwave for Florence, NGN1000, date 05/03/2025" false).2
      = [] := by
  have h := paymentMarker_lifecycle [] 7 1741132800000 (addUser_tg 7 0)
    [(7, jsDateMs 2025 2 5)]
    "Payment successful via Flutterwave for Florence, NGN1000, date 05/03/2025"
    (jsDateMs 2025 2 5)
  refine ⟨h.1, ?_⟩
  have h2 := (h.2.1 (by decide) (by decide)).1
  exact h2.trans (by decide)

/-- C10: with a marker present, an accepted PDF proof credits exactly 10
tokens and deletes the marker in the same step; a rejected proof leaves
the user and the marker map unchanged. -/
theorem creditOnAcceptedProof (user : TgUser) (pr : List (Nat × Int)) (text : String)
    (ts : Int) (hm : mapGet pr user.id = some ts) :
    ((verifyPaymentProof text ts).valid = true →
      handleDocument user pr true text false =
        ({ user with tokens := user.tokens + 10 }, mapDelete pr user.id)) ∧
    ((verifyPaymentProof text ts).valid = false →
      handleDocument user pr true text false = (user, pr)) := by
  constructor
  · intro hv
    simp [handleDocument, hm, hv]
  · intro hv
    simp [handleDocument, hm, hv]

/-- Witness for C10: an accepted proof moves a fresh Telegram user from 10
to 20 tokens and clears the marker. -/
theorem creditOnAcceptedProof_witness :
    handleDocument (addUser_tg 9 0) [(9, jsDateMs 2025 2 5)] true
      "paid via flutterwave for flo ngn1,000 on 05/03/2025" false =
      ({ id := 9, tokens := 20, streak := 0, lastActive := 0 }, []) := by
  have h := (creditOnAcceptedProof (addUser_tg 9 0) [(9, jsDateMs 2025 2 5)]
    "paid via flutterwave for flo ngn1,000 on 05/03/2025" (jsDateMs 2025 2 5)
    (by decide)).1 (by decide)
  exact h.trans (by decide)
